import Mathlib

/-!
Shallow embedding of the cameleon USB3Vision / GenTL control plane:
the GenCP acknowledge codec (cameleon-device/src/usb3/protocol/ack.rs),
the memory access-rights engine (cameleon-impl/src/memory.rs), and the
GenTL device module state machine (cameleon-gentl/src/imp/device/u3v.rs).

Byte buffers are `List Nat` with every element < 256; machine integers
are `Nat` with explicit masks where the source relies on a fixed width.
A `Cursor<&[u8]>` is embedded as the list of not-yet-consumed bytes.
Fallible code returns `Except`.
-/

namespace Cameleon

/-- Error type of the `cameleon-device` usb3 crate, restricted to the two
variants the ack codec can produce: `InvalidPacket(reason)` from explicit
validation, and an I/O error raised when `Cursor` reads hit end of input.
Dynamic `format!` arguments of the source messages are omitted. -/
inductive Err where
  | invalidPacket (msg : String)
  | ioError
  deriving DecidableEq, Repr

/-- `cursor.read_u16::<LE>()`: consume two bytes, little endian. -/
def readU16 : List Nat → Except Err (Nat × List Nat)
  | b0 :: b1 :: rest => .ok (b0 + 256 * b1, rest)
  | _ => .error .ioError

/-- `cursor.read_u32::<LE>()`: consume four bytes, little endian. -/
def readU32 : List Nat → Except Err (Nat × List Nat)
  | b0 :: b1 :: b2 :: b3 :: rest =>
      .ok (b0 + 256 * b1 + 65536 * b2 + 16777216 * b3, rest)
  | _ => .error .ioError

/-- Modelled from the spec: `parse_util::read_bytes` (the file is not part
of the sources given); §4.2 step 5: "take exactly `scd_len` bytes; if fewer
remain, InvalidPacket". -/
def readBytes (l : List Nat) (len : Nat) : Except Err (List Nat × List Nat) :=
  if len ≤ l.length then .ok (l.take len, l.drop len)
  else .error (.invalidPacket "data is smaller than specified length")

/-- `GenCpStatus` of ack.rs. -/
inductive GenCpStatus where
  | success | notImplemented | invalidParameter | invalidAddress
  | writeProtect | badAlignment | accessDenied | busy
  | timeout | invalidHeader | wrongConfig | genericError
  deriving DecidableEq, Repr

/-- `UsbSpecificStatus` of ack.rs. -/
inductive UsbSpecificStatus where
  | resendNotSupported | streamEndpointHalted | payloadSizeNotAligned
  | eventEndpointHalted | invalidSiState
  deriving DecidableEq, Repr

/-- `StatusKind` of ack.rs. -/
inductive StatusKind where
  | genCp (s : GenCpStatus)
  | usbSpecific (s : UsbSpecificStatus)
  | deviceSpecific
  deriving DecidableEq, Repr

/-- `Status` of ack.rs: the raw 16-bit code plus its decoded kind. -/
structure Status where
  code : Nat
  kind : StatusKind
  deriving DecidableEq, Repr

/-- `Status::is_success`. -/
def Status.is_success (s : Status) : Bool :=
  match s.kind with
  | .genCp .success => true
  | _ => false

/-- `Status::is_fatal`: `self.code >> 15 == 1`. -/
def Status.is_fatal (s : Status) : Bool :=
  s.code >>> 15 == 1

/-- `Status::parse_gencp_status`: the table of GenCP status codes. -/
def Status.parse_gencp_status (code : Nat) : Except Err Status :=
  match code with
  | 0x0000 => .ok ⟨code, .genCp .success⟩
  | 0x8001 => .ok ⟨code, .genCp .notImplemented⟩
  | 0x8002 => .ok ⟨code, .genCp .invalidParameter⟩
  | 0x8003 => .ok ⟨code, .genCp .invalidAddress⟩
  | 0x8004 => .ok ⟨code, .genCp .writeProtect⟩
  | 0x8005 => .ok ⟨code, .genCp .badAlignment⟩
  | 0x8006 => .ok ⟨code, .genCp .accessDenied⟩
  | 0x8007 => .ok ⟨code, .genCp .busy⟩
  | 0x800B => .ok ⟨code, .genCp .timeout⟩
  | 0x800E => .ok ⟨code, .genCp .invalidHeader⟩
  | 0x800F => .ok ⟨code, .genCp .wrongConfig⟩
  | 0x8FFF => .ok ⟨code, .genCp .genericError⟩
  | _ => .error (.invalidPacket "invalid gencp status code")

/-- `Status::parse_usb_status`: the table of USB-specific status codes. -/
def Status.parse_usb_status (code : Nat) : Except Err Status :=
  match code with
  | 0xA001 => .ok ⟨code, .usbSpecific .resendNotSupported⟩
  | 0xA002 => .ok ⟨code, .usbSpecific .streamEndpointHalted⟩
  | 0xA003 => .ok ⟨code, .usbSpecific .payloadSizeNotAligned⟩
  | 0xA004 => .ok ⟨code, .usbSpecific .invalidSiState⟩
  | 0xA005 => .ok ⟨code, .usbSpecific .eventEndpointHalted⟩
  | _ => .error (.invalidPacket "invalid usb status code")

/-- `Status::parse`, split on the already-read 16-bit code.  The source
computes `let namespace = (code >> 13) & 0x11;` — the mask is the DECIMAL
literal 0x11 = 17 = 0b10001, exactly as written in ack.rs line 150. -/
def Status.parse (code : Nat) : Except Err Status :=
  match (code >>> 13) &&& 0x11 with
  | 0b00 => Status.parse_gencp_status code
  | 0b01 => Status.parse_usb_status code
  | 0b10 => .ok ⟨code, .deviceSpecific⟩
  | _ => .error (.invalidPacket "invalid ack status code, namespace is set to 0b11")

/-- `Status::parse` lifted to a cursor: first `read_u16::<LE>`, then decode. -/
def Status.parseCursor (l : List Nat) : Except Err (Status × List Nat) :=
  match readU16 l with
  | .error e => .error e
  | .ok (code, rest) =>
      match Status.parse code with
      | .error e => .error e
      | .ok s => .ok (s, rest)

/-- Modelled from the spec (§3 "Status", §6 "Status namespace", and the §9
status-parsing caveat): the corrected status parse the spec documents, with
namespace mask `0b11` and an explicit rejection of namespace `11`.  This is
the refinement target `Status.parse` is compared against. -/
def Status.parseSpec (code : Nat) : Except Err Status :=
  match (code >>> 13) &&& 0b11 with
  | 0b00 => Status.parse_gencp_status code
  | 0b01 => Status.parse_usb_status code
  | 0b10 => .ok ⟨code, .deviceSpecific⟩
  | _ => .error (.invalidPacket "invalid ack status code, namespace is set to 0b11")

/-- `ScdKind` of ack.rs. -/
inductive ScdKind where
  | readMem | writeMem | readMemStacked | writeMemStacked | pending
  | custom (id : Nat)
  deriving DecidableEq, Repr

/-- `ScdKind::parse`. -/
def ScdKind.parse (l : List Nat) : Except Err (ScdKind × List Nat) :=
  match readU16 l with
  | .error e => .error e
  | .ok (id, rest) =>
      match id with
      | 0x0801 => .ok (.readMem, rest)
      | 0x0803 => .ok (.writeMem, rest)
      | 0x0805 => .ok (.pending, rest)
      | 0x0807 => .ok (.readMemStacked, rest)
      | 0x0809 => .ok (.writeMemStacked, rest)
      | _ =>
          if id >>> 15 == 1 && id &&& 1 == 1 then .ok (.custom id, rest)
          else .error (.invalidPacket "unknown ack command id")

/-- `AckScd` of ack.rs.  `Pending`'s `time::Duration` is kept as the raw
millisecond count the source feeds to `Duration::from_millis`. -/
inductive AckScd where
  | readMem (data : List Nat)
  | writeMem (length : Nat)
  | readMemStacked (data : List Nat)
  | writeMemStacked (lengths : List Nat)
  | pending (timeoutMs : Nat)
  | custom (data : List Nat)
  deriving DecidableEq, Repr

/-- `AckScd::parse_read_mem`. -/
def AckScd.parse_read_mem (l : List Nat) (len : Nat) :
    Except Err (AckScd × List Nat) :=
  match readBytes l len with
  | .error e => .error e
  | .ok (data, rest) => .ok (.readMem data, rest)

/-- `AckScd::parse_write_mem`. -/
def AckScd.parse_write_mem (l : List Nat) : Except Err (AckScd × List Nat) :=
  match readU16 l with
  | .error e => .error e
  | .ok (reserved, rest) =>
      if reserved ≠ 0 then
        .error (.invalidPacket "the first two bytes of WriteMemAck scd must be set to zero")
      else
        match readU16 rest with
        | .error e => .error e
        | .ok (length, rest2) => .ok (.writeMem length, rest2)

/-- `AckScd::parse_read_mem_stacked`. -/
def AckScd.parse_read_mem_stacked (l : List Nat) (len : Nat) :
    Except Err (AckScd × List Nat) :=
  match readBytes l len with
  | .error e => .error e
  | .ok (data, rest) => .ok (.readMemStacked data, rest)

/-- `AckScd::parse_write_mem_stacked`: the entry loop.  Each iteration with
`len > 0` consumes one whole 4-byte entry {reserved u16 = 0, length u16} and
decrements the budget by `len.saturating_sub(4)` — on `Nat`, truncated
subtraction `len - 4`.  Returns the accumulated lengths (in order) and the
remaining cursor. -/
def parseWriteMemStackedLoop (l : List Nat) (len : Nat) :
    Except Err (List Nat × List Nat) :=
  if _h : 0 < len then
    match readU16 l with
    | .error e => .error e
    | .ok (reserved, rest) =>
        if reserved ≠ 0 then
          .error (.invalidPacket
            "the first two bytes of each WriteMemStackedAck scd entry must be set to zero")
        else
          match readU16 rest with
          | .error e => .error e
          | .ok (length, rest2) =>
              match parseWriteMemStackedLoop rest2 (len - 4) with
              | .error e => .error e
              | .ok (lengths, rem) => .ok (length :: lengths, rem)
  else .ok ([], l)
termination_by len
decreasing_by omega

/-- `AckScd::parse_write_mem_stacked`. -/
def AckScd.parse_write_mem_stacked (l : List Nat) (len : Nat) :
    Except Err (AckScd × List Nat) :=
  match parseWriteMemStackedLoop l len with
  | .error e => .error e
  | .ok (lengths, rest) => .ok (.writeMemStacked lengths, rest)

/-- `AckScd::parse_pending`. -/
def AckScd.parse_pending (l : List Nat) : Except Err (AckScd × List Nat) :=
  match readU16 l with
  | .error e => .error e
  | .ok (reserved, rest) =>
      if reserved ≠ 0 then
        .error (.invalidPacket "the first two bytes of PendingAck scd must be set to zero")
      else
        match readU16 rest with
        | .error e => .error e
        | .ok (timeoutMs, rest2) => .ok (.pending timeoutMs, rest2)

/-- `AckScd::parse_custom`. -/
def AckScd.parse_custom (l : List Nat) (len : Nat) :
    Except Err (AckScd × List Nat) :=
  match readBytes l len with
  | .error e => .error e
  | .ok (data, rest) => .ok (.custom data, rest)

/-- `AckCcd` of ack.rs. -/
structure AckCcd where
  status : Status
  scd_kind : ScdKind
  request_id : Nat
  scd_len : Nat
  deriving DecidableEq, Repr

/-- `AckCcd::parse`: status, scd kind, scd length, request id, in wire
order, each little endian. -/
def AckCcd.parse (l : List Nat) : Except Err (AckCcd × List Nat) :=
  match Status.parseCursor l with
  | .error e => .error e
  | .ok (status, l1) =>
      match ScdKind.parse l1 with
      | .error e => .error e
      | .ok (kind, l2) =>
          match readU16 l2 with
          | .error e => .error e
          | .ok (scdLen, l3) =>
              match readU16 l3 with
              | .error e => .error e
              | .ok (reqId, l4) => .ok (⟨status, kind, reqId, scdLen⟩, l4)

/-- `AckScd::parse`: dispatch on the CCD's scd kind. -/
def AckScd.parse (l : List Nat) (ccd : AckCcd) : Except Err (AckScd × List Nat) :=
  match ccd.scd_kind with
  | .readMem => AckScd.parse_read_mem l ccd.scd_len
  | .writeMem => AckScd.parse_write_mem l
  | .readMemStacked => AckScd.parse_read_mem_stacked l ccd.scd_len
  | .writeMemStacked => AckScd.parse_write_mem_stacked l ccd.scd_len
  | .pending => AckScd.parse_pending l
  | .custom _ => AckScd.parse_custom l ccd.scd_len

/-- `AckPacket` of ack.rs. -/
structure AckPacket where
  ccd : AckCcd
  scd : Option AckScd
  deriving DecidableEq, Repr

/-- `AckPacket::PREFIX_MAGIC`. -/
def AckPacket.PREFIX_MAGIC : Nat := 0x43563355

/-- `AckPacket::parse_prefix`: the prefix-magic check. -/
def AckPacket.parsePrefixMagic (l : List Nat) : Except Err (List Nat) :=
  match readU32 l with
  | .error e => .error e
  | .ok (magic, rest) =>
      if magic == AckPacket.PREFIX_MAGIC then .ok rest
      else .error (.invalidPacket "invalid prefix magic")

/-- `AckPacket::parse`: prefix, CCD, then the SCD — the SCD only when the
status is `Success`. -/
def AckPacket.parse (buf : List Nat) : Except Err AckPacket :=
  match AckPacket.parsePrefixMagic buf with
  | .error e => .error e
  | .ok l1 =>
      match AckCcd.parse l1 with
      | .error e => .error e
      | .ok (ccd, l2) =>
          if ccd.status.is_success then
            match AckScd.parse l2 ccd with
            | .error e => .error e
            | .ok (scd, _) => .ok ⟨ccd, some scd⟩
          else .ok ⟨ccd, none⟩

/-- `AckPacket::status`. -/
def AckPacket.status (p : AckPacket) : Status := p.ccd.status

/-- `AckPacket::request_id`. -/
def AckPacket.request_id (p : AckPacket) : Nat := p.ccd.request_id

/-! ## Memory & access-rights engine (cameleon-impl/src/memory.rs) -/

/-- `AccessRight` of memory.rs. -/
inductive AccessRight where
  | NA | RO | WO | RW
  deriving DecidableEq, Repr

/-- `AccessRight::as_num`: NA=0b00, RO=0b01, WO=0b10, RW=0b11. -/
def AccessRight.as_num : AccessRight → Nat
  | .NA => 0b00
  | .RO => 0b01
  | .WO => 0b10
  | .RW => 0b11

/-- `AccessRight::is_readable`: `self.as_num() & 0b1 == 1`. -/
def AccessRight.is_readable (r : AccessRight) : Bool :=
  r.as_num &&& 0b1 == 1

/-- `AccessRight::is_writable`: `self.as_num() >> 1 == 1`. -/
def AccessRight.is_writable (r : AccessRight) : Bool :=
  r.as_num >>> 1 == 1

/-- `AccessRight::meet`. -/
def AccessRight.meet (r rhs : AccessRight) : AccessRight :=
  match r with
  | .RW => if rhs = .RW then .RW else rhs
  | .RO => if rhs.is_readable then r else .NA
  | .WO => if rhs.is_writable then r else .NA
  | .NA => .NA

/-- `AccessRight::from_num`.  The source `debug_assert!`s `num >> 2 == 0`
and panics (`unreachable!`) above 3; every call site masks with `& 0b11`,
so the catch-all arm is dead — it is mapped to `NA` here. -/
def AccessRight.from_num (num : Nat) : AccessRight :=
  match num with
  | 0b00 => .NA
  | 0b01 => .RO
  | 0b10 => .WO
  | 0b11 => .RW
  | _ => .NA

/-- `MemoryProtection` of memory.rs: the 2-bit-per-byte rights bitmap
(`inner`, each element a u8, kept as `Nat` < 256) plus the protected
memory size. -/
structure MemoryProtection where
  inner : List Nat
  memory_size : Nat
  deriving DecidableEq, Repr

/-- `MemoryProtection::new`: `len = 0` when the size is 0, otherwise
`(memory_size - 1) / 4 + 1`; the bitmap starts zeroed. -/
def MemoryProtection.new (memory_size : Nat) : MemoryProtection :=
  let len := if memory_size = 0 then 0 else (memory_size - 1) / 4 + 1
  ⟨List.replicate len 0, memory_size⟩

/-- `MemoryProtection::set_access_right`.  The source indexes
`self.inner[address / 4]` (a panic when out of range); here an
out-of-range index leaves the bitmap unchanged (`List.set` is the
identity there), and theorems carry the in-range hypothesis. -/
def MemoryProtection.set_access_right (p : MemoryProtection)
    (address : Nat) (access_right : AccessRight) : MemoryProtection :=
  let block := p.inner.getD (address / 4) 0
  let offset := address % 4 * 2
  let mask := 255 ^^^ (0b11 <<< offset)
  let block := (block &&& mask) ||| (access_right.as_num <<< offset)
  ⟨p.inner.set (address / 4) block, p.memory_size⟩

/-- `MemoryProtection::access_right`.  As above, the source panics on an
out-of-range bitmap index; the embedding reads 0 there. -/
def MemoryProtection.access_right (p : MemoryProtection) (address : Nat) :
    AccessRight :=
  let block := p.inner.getD (address / 4) 0
  let offset := address % 4 * 2
  AccessRight.from_num (block >>> offset &&& 0b11)

/-- `MemoryProtection::access_right_with_range`, the iterator argument
embedded as the list of visited addresses: fold of `meet` seeded at `RW`. -/
def MemoryProtection.access_right_with_range (p : MemoryProtection)
    (range : List Nat) : AccessRight :=
  range.foldl (fun acc i => acc.meet (p.access_right i)) .RW

/-- `MemoryError` variants relevant here. -/
inductive MemoryError where
  | addressNotReadable | addressNotWritable | invalidAddress
  deriving DecidableEq, Repr

/-- `MemoryProtection::verify_address`. -/
def MemoryProtection.verify_address (p : MemoryProtection) (address : Nat) :
    Except MemoryError Unit :=
  if p.memory_size ≤ address then .error .invalidAddress else .ok ()

/-! ## GenTL device module (cameleon-gentl/src/imp/device/u3v.rs)

The module's own control flow (`open`, `close`, `reflect_status`,
`access_status`, the `Port` impl) is embedded from the source.  The types
and collaborators it uses live outside the given sources and are modelled
from the spec:

* `GenTlError` — modelled from the spec, §7: the variants the device
  module distinguishes (`NotInitialized`, `AccessDenied`, `ResourceInUse`,
  `Io`, plus a representative "other" variant for the catch-all arms).
* `DeviceAccessStatus` — modelled from the spec, §4.5: `current_status ∈
  {Unknown, ReadWrite, OpenReadWrite, NoAccess, Busy}`.
* `DeviceAccessStatus.is_opened` — modelled from the spec, §4.5:
  "a status-level predicate mapping OpenReadWrite (and any other explicit
  open states) to true"; of the five states above only OpenReadWrite is
  an open state.
* `DeviceAccessFlag` — modelled from the spec, §6: `Exclusive` plus
  representative rejected flags.
* the `u3v::Device` collaborator (`device.open()`, `device.close()`,
  `device.control_handle()` and `U3VRemoteDevice::new`) — its outcomes are
  passed in as an explicit `U3VDeviceEnv`.
* the virtual register `DeviceAccessStatusReg` — kept as a module field
  holding the reflected status (the u32 encoding the macro-generated
  register uses is not in the sources and irrelevant to the claims).
-/

/-- Modelled from the spec (§7): GenTL error variants the device module
distinguishes. -/
inductive GenTlError where
  | notInit
  | accessDenied
  | resourceInUse
  | ioError
  | notAvailable
  | otherError
  deriving DecidableEq, Repr

/-- Modelled from the spec (§4.5): the device access statuses. -/
inductive DeviceAccessStatus where
  | unknown | readWrite | openReadWrite | noAccess | busy
  deriving DecidableEq, Repr

/-- Modelled from the spec (§4.5): `DeviceAccessStatus::is_opened`. -/
def DeviceAccessStatus.is_opened : DeviceAccessStatus → Bool
  | .openReadWrite => true
  | _ => false

/-- Modelled from the spec (§6): device access flags; only `Exclusive`
is accepted. -/
inductive DeviceAccessFlag where
  | exclusive | readOnly | control
  deriving DecidableEq, Repr

/-- State of `U3VDeviceModule`: the lifecycle status, the mirrored
`DeviceAccessStatusReg` register, and whether `remote_device` is `Some`. -/
structure U3VDeviceModule where
  current_status : DeviceAccessStatus
  status_reg : DeviceAccessStatus
  remote_device : Bool
  deriving DecidableEq, Repr

/-- Outcomes of the external `u3v::Device` collaborator during `open` and
`close`: `openRes` is `self.device.open()`, `ctrlRes` merges
`self.device.control_handle()?` and `U3VRemoteDevice::new(..)?` (the two
`?`-propagated steps), `closeRes` is `self.device.close()`. -/
structure U3VDeviceEnv where
  openRes : Except GenTlError Unit
  ctrlRes : Except GenTlError Unit
  closeRes : Except GenTlError Unit
  deriving Repr

/-- `U3VDeviceModule::is_opened`. -/
def U3VDeviceModule.is_opened (m : U3VDeviceModule) : Bool :=
  m.current_status.is_opened

/-- `U3VDeviceModule::assert_open`. -/
def U3VDeviceModule.assert_open (m : U3VDeviceModule) :
    Except GenTlError Unit :=
  if m.is_opened then .ok () else .error .notInit

/-- `U3VDeviceModule::reflect_status`: write `current_status` into
`DeviceAccessStatusReg`. -/
def U3VDeviceModule.reflect_status (m : U3VDeviceModule) : U3VDeviceModule :=
  { m with status_reg := m.current_status }

/-- `U3VDeviceModule::access_status`: read `DeviceAccessStatusReg`. -/
def U3VDeviceModule.access_status (m : U3VDeviceModule) : DeviceAccessStatus :=
  m.status_reg

/-- `Device::open` for `U3VDeviceModule`: flag gate, already-open gate,
then the external open; `control_handle()?` / `U3VRemoteDevice::new(..)?`
return early on error (leaving `current_status` untouched); otherwise
`current_status` is set from the open result and the open result is
returned. -/
def U3VDeviceModule.open (m : U3VDeviceModule) (access_flag : DeviceAccessFlag)
    (env : U3VDeviceEnv) : Except GenTlError Unit × U3VDeviceModule :=
  if access_flag ≠ .exclusive then (.error .accessDenied, m)
  else if m.is_opened then (.error .resourceInUse, m)
  else
    let res := env.openRes
    match env.ctrlRes with
    | .error e => (.error e, m)
    | .ok _ =>
        let m := { m with remote_device := true }
        let st : DeviceAccessStatus :=
          match res with
          | .ok _ => .openReadWrite
          | .error .accessDenied => .busy
          | .error .ioError => .noAccess
          | .error _ => .unknown
        (res, { m with current_status := st })

/-- `Device::close` for `U3VDeviceModule`: the external close result only
sets `current_status`; the remote device is dropped and `Ok(())` is
returned in every case. -/
def U3VDeviceModule.close (m : U3VDeviceModule) (env : U3VDeviceEnv) :
    Except GenTlError Unit × U3VDeviceModule :=
  let res := env.closeRes
  let st : DeviceAccessStatus :=
    match res with
    | .ok _ => .readWrite
    | .error .ioError => .noAccess
    | .error _ => .unknown
  (.ok (), { m with current_status := st, remote_device := false })

/-- `Port::read` for `U3VDeviceModule`: gate on `assert_open`, then the
virtual-memory read (its outcome passed in as `vmRes`); on success the
buffer length is returned. -/
def U3VDeviceModule.portRead (m : U3VDeviceModule)
    (vmRes : Except GenTlError (List Nat)) : Except GenTlError Nat :=
  match m.assert_open with
  | .error e => .error e
  | .ok _ =>
      match vmRes with
      | .error e => .error e
      | .ok data => .ok data.length

/-- `Port::write` for `U3VDeviceModule`: gate on `assert_open`, then the
virtual-memory write; on success the data length is returned. -/
def U3VDeviceModule.portWrite (m : U3VDeviceModule)
    (vmRes : Except GenTlError Unit) (data : List Nat) :
    Except GenTlError Nat :=
  match m.assert_open with
  | .error e => .error e
  | .ok _ =>
      match vmRes with
      | .error e => .error e
      | .ok _ => .ok data.length

/-- `Port::port_info` for `U3VDeviceModule`: gate on `assert_open`, then
return the stored port info (abstracted to `Unit`). -/
def U3VDeviceModule.portInfo (m : U3VDeviceModule) : Except GenTlError Unit :=
  match m.assert_open with
  | .error e => .error e
  | .ok _ => .ok ()

/-- `Port::xml_infos` for `U3VDeviceModule`: gate on `assert_open`, then
return the stored xml infos (abstracted to `Unit`). -/
def U3VDeviceModule.xmlInfos (m : U3VDeviceModule) : Except GenTlError Unit :=
  match m.assert_open with
  | .error e => .error e
  | .ok _ => .ok ()

/-! ## Helper lemmas -/

/-- `getD` after `set` at the same, in-range index returns the new value. -/
theorem getD_set_self : ∀ (l : List Nat) (i v : Nat), i < l.length →
    (l.set i v).getD i 0 = v := by
  intro l
  induction l with
  | nil => intro i v h; simp at h
  | cons a l ih =>
      intro i v h
      cases i with
      | zero => rfl
      | succ i => simpa using ih i v (by simpa using h)

/-- `getD` after `set` at a different index is unchanged. -/
theorem getD_set_ne : ∀ (l : List Nat) (i j v : Nat), i ≠ j →
    (l.set i v).getD j 0 = l.getD j 0 := by
  intro l
  induction l with
  | nil => intro i j v _; cases i <;> rfl
  | cons a l ih =>
      intro i j v hij
      cases i with
      | zero =>
          cases j with
          | zero => exact absurd rfl hij
          | succ j => rfl
      | succ i =>
          cases j with
          | zero => rfl
          | succ j => simpa using ih i j v (fun h => hij (by rw [h]))

/-- A default-0 `getD` read of a list of bytes is a byte. -/
theorem getD_mem_lt : ∀ (l : List Nat), (∀ b ∈ l, b < 256) → ∀ j,
    l.getD j 0 < 256 := by
  intro l
  induction l with
  | nil => intro _ j; cases j <;> simp [List.getD]
  | cons a l ih =>
      intro h j
      cases j with
      | zero => exact h a (by simp)
      | succ j => simpa using ih (fun b hb => h b (by simp [hb])) j

/-- A default-0 `getD` read of an all-zero bitmap is 0. -/
theorem getD_replicate_zero : ∀ (k j : Nat),
    (List.replicate k (0 : Nat)).getD j 0 = 0 := by
  intro k
  induction k with
  | zero => intro j; cases j <;> rfl
  | succ k ih =>
      intro j
      cases j with
      | zero => rfl
      | succ j => simp [ih j]

set_option maxRecDepth 8192

/-- Writing the 2-bit field at offset `o * 2` of a byte and reading it
back yields the written value. -/
theorem bitmap_set_get_self : ∀ b < 256, ∀ o < 4, ∀ rn < 4,
    (((b &&& (255 ^^^ (3 <<< (o * 2)))) ||| (rn <<< (o * 2))) >>> (o * 2)) &&& 3
      = rn := by
  decide

/-- Writing the 2-bit field at offset `o * 2` of a byte leaves every other
2-bit field of the byte unchanged. -/
theorem bitmap_set_get_other : ∀ b < 256, ∀ o < 4, ∀ o' < 4, ∀ rn < 4,
    o ≠ o' →
    (((b &&& (255 ^^^ (3 <<< (o * 2)))) ||| (rn <<< (o * 2))) >>> (o' * 2)) &&& 3
      = (b >>> (o' * 2)) &&& 3 := by
  decide

/-- `from_num` inverts `as_num`. -/
theorem from_num_as_num : ∀ r : AccessRight,
    AccessRight.from_num r.as_num = r := by
  intro r; cases r <;> rfl

/-! ## Theorems about the claims -/

/-- C1: the claim says `Status::parse` partitions on the namespace in bits
14..13 — `0b10` yielding a DeviceSpecific status that retains the code,
`0b11` rejected as InvalidPacket.  The source masks the namespace with the
literal `0x11` (= 17, not `0b11` = 3), so the namespace collapses to bit 13
alone: the status code `0x4000`, whose bits 14..13 are `10`, is routed to
the GenCP table and rejected as InvalidPacket instead of parsing as
DeviceSpecific; the corrected parse the spec documents accepts it.  The
`0b10` arm and the `0b11` rejection arm of the source are unreachable. -/
theorem status_parse_namespace_bug :
    ((0x4000 >>> 13) &&& 0b11 = 2) ∧
    ((0x4000 >>> 13) &&& 0x11 = 0) ∧
    (Status.parse 0x4000 = .error (.invalidPacket "invalid gencp status code")) ∧
    (Status.parseSpec 0x4000 = .ok ⟨0x4000, .deviceSpecific⟩) :=
  ⟨rfl, rfl, rfl, rfl⟩

/-- C5: `meet` is commutative, associative and idempotent on the four
access rights; `RW` is its unit and `NA` absorbing; and
`access_right_with_range` is the fold of `meet` over the bytes of the
range, seeded at `RW`. -/
theorem access_right_meet_lattice :
    (∀ a b : AccessRight, a.meet b = b.meet a) ∧
    (∀ a b c : AccessRight, (a.meet b).meet c = a.meet (b.meet c)) ∧
    (∀ a : AccessRight, a.meet a = a) ∧
    (∀ x : AccessRight, AccessRight.RW.meet x = x) ∧
    (∀ x : AccessRight, AccessRight.NA.meet x = .NA) ∧
    (∀ (p : MemoryProtection) (range : List Nat),
      p.access_right_with_range range
        = range.foldl (fun acc i => acc.meet (p.access_right i)) .RW) := by
  refine ⟨?_, ?_, ?_, ?_, ?_, ?_⟩
  · intro a b; cases a <;> cases b <;> rfl
  · intro a b c; cases a <;> cases b <;> cases c <;> rfl
  · intro a; cases a <;> rfl
  · intro x; cases x <;> rfl
  · intro x; rfl
  · intro p range; rfl

/-- C10: a fresh `MemoryProtection::new(N)` has a bitmap of exactly
⌈N/4⌉ bytes (zero bytes when N = 0) and assigns `NA` to every byte
index below N. -/
theorem memory_protection_new_spec :
    ∀ n : Nat,
      (MemoryProtection.new n).inner.length = (n + 3) / 4 ∧
      (n = 0 → (MemoryProtection.new n).inner = []) ∧
      (∀ i, i < n → (MemoryProtection.new n).access_right i = .NA) := by
  intro n
  refine ⟨?_, ?_, ?_⟩
  · simp only [MemoryProtection.new, List.length_replicate]
    split <;> omega
  · intro h; subst h; rfl
  · intro i _
    have hz : (MemoryProtection.new n).inner.getD (i / 4) 0 = 0 := by
      simp only [MemoryProtection.new]
      exact getD_replicate_zero _ _
    simp only [MemoryProtection.access_right, hz, Nat.zero_shiftRight,
      Nat.zero_and]
    rfl

/-- Witness for C10 at N = 5, i = 2. -/
theorem memory_protection_new_spec_witness :
    (MemoryProtection.new 5).inner.length = (5 + 3) / 4 ∧
    (MemoryProtection.new 5).access_right 2 = .NA :=
  ⟨(memory_protection_new_spec 5).1,
   (memory_protection_new_spec 5).2.2 2 (by decide)⟩

/-- C4: whenever `AckPacket::parse` succeeds, the packet's status is
`Success` exactly when its `scd` field is `Some`; a non-success status
yields `scd = None`, the CCD — and with it `request_id()` — having been
parsed regardless. -/
theorem ack_parse_success_iff_scd :
    ∀ (buf : List Nat) (p : AckPacket), AckPacket.parse buf = .ok p →
      ((p.status.is_success = true ↔ p.scd.isSome = true) ∧
       (p.status.is_success = false → p.scd = none) ∧
       p.request_id = p.ccd.request_id) := by
  intro buf p hp
  unfold AckPacket.parse at hp
  cases hmag : AckPacket.parsePrefixMagic buf with
  | error e => simp [hmag] at hp
  | ok l1 =>
      simp only [hmag] at hp
      cases hccd : AckCcd.parse l1 with
      | error e => simp [hccd] at hp
      | ok r =>
          obtain ⟨ccd, l2⟩ := r
          simp only [hccd] at hp
          by_cases hs : ccd.status.is_success = true
          · rw [if_pos hs] at hp
            cases hscd : AckScd.parse l2 ccd with
            | error e => simp [hscd] at hp
            | ok r2 =>
                obtain ⟨scd, rem⟩ := r2
                simp only [hscd] at hp
                have hpv : p = ⟨ccd, some scd⟩ := by cases hp; rfl
                subst hpv
                refine ⟨by simp [AckPacket.status, hs], ?_, rfl⟩
                intro hfalse
                rw [AckPacket.status] at hfalse
                rw [hs] at hfalse
                cases hfalse
          · rw [if_neg hs] at hp
            have hpv : p = ⟨ccd, none⟩ := by cases hp; rfl
            subst hpv
            refine ⟨?_, fun _ => rfl, rfl⟩
            constructor
            · intro hsucc
              exact absurd hsucc hs
            · intro hsome
              cases hsome

/-- The ReadMemAck test buffer of ack.rs (scenario S1): magic, status
Success, scd kind 0x0801, scd length 4, request id 1, payload
[1, 2, 3, 4]. -/
def s1buf : List Nat :=
  [0x55, 0x33, 0x56, 0x43, 0x00, 0x00, 0x01, 0x08, 0x04, 0x00, 0x01, 0x00,
   0x01, 0x02, 0x03, 0x04]

/-- The packet `AckPacket::parse` produces on `s1buf`. -/
def s1pkt : AckPacket :=
  ⟨⟨⟨0, .genCp .success⟩, .readMem, 1, 4⟩, some (.readMem [1, 2, 3, 4])⟩

/-- Witness for C4 on the ReadMemAck test buffer. -/
theorem ack_parse_success_iff_scd_witness :
    (s1pkt.status.is_success = true ↔ s1pkt.scd.isSome = true) ∧
    (s1pkt.status.is_success = false → s1pkt.scd = none) ∧
    s1pkt.request_id = s1pkt.ccd.request_id :=
  ack_parse_success_iff_scd s1buf s1pkt rfl

/-- A protection whose bitmap holds bytes and has the length
`MemoryProtection::new` allocates for its memory size. -/
def MemoryProtection.wellFormed (p : MemoryProtection) : Prop :=
  (∀ b ∈ p.inner, b < 256) ∧
  p.inner.length = (if p.memory_size = 0 then 0 else (p.memory_size - 1) / 4 + 1)

/-- C6: on a well-formed protection, `set_access_right(i, r)` with
`i < memory_size` makes `access_right(i)` return `r` and leaves
`access_right(j)` unchanged for every `j ≠ i` below the memory size
(the two bits for byte `i` live at bit offset `(i % 4) * 2` of bitmap
byte `i / 4`). -/
theorem set_access_right_frame :
    ∀ (p : MemoryProtection) (i : Nat) (r : AccessRight),
      p.wellFormed → i < p.memory_size →
      ((p.set_access_right i r).access_right i = r ∧
       ∀ j, j ≠ i → j < p.memory_size →
         (p.set_access_right i r).access_right j = p.access_right j) := by
  intro p i r hwf hi
  obtain ⟨hbytes, hlen⟩ := hwf
  have hidx : i / 4 < p.inner.length := by
    rw [hlen]; split <;> omega
  have hblk : p.inner.getD (i / 4) 0 < 256 := getD_mem_lt p.inner hbytes _
  have hrn : r.as_num < 4 := by cases r <;> decide
  have hoff : i % 4 < 4 := Nat.mod_lt _ (by omega)
  constructor
  · simp only [MemoryProtection.set_access_right, MemoryProtection.access_right,
      getD_set_self _ _ _ hidx]
    rw [bitmap_set_get_self _ hblk _ hoff _ hrn]
    exact from_num_as_num r
  · intro j hji _
    by_cases hb : j / 4 = i / 4
    · have hmod : i % 4 ≠ j % 4 := by omega
      simp only [MemoryProtection.set_access_right, MemoryProtection.access_right,
        hb, getD_set_self _ _ _ hidx]
      rw [bitmap_set_get_other _ hblk _ hoff _ (Nat.mod_lt j (by omega)) _ hrn hmod]
    · simp only [MemoryProtection.set_access_right, MemoryProtection.access_right,
        getD_set_ne _ _ _ _ (fun h => hb h.symm)]

/-- Wire encoding of one WriteMemStackedAck entry for a 16-bit length
`l`: reserved u16 = 0, then `l` little endian. -/
def mkEntry (l : Nat) : List Nat := [0, 0, l % 256, l / 256]

/-- Wire encoding of a sequence of WriteMemStackedAck entries. -/
def mkEntries : List Nat → List Nat
  | [] => []
  | l :: ls => mkEntry l ++ mkEntries ls

/-- The entry loop consumes exactly ⌈len/4⌉ whole entries: on a buffer
holding that many well-formed entries it succeeds with their lengths, for
every budget `len` — divisible by 4 or not. -/
theorem parseWriteMemStackedLoop_ok :
    ∀ (ls : List Nat) (len : Nat) (rest : List Nat),
      (∀ l ∈ ls, l < 65536) → ls.length = (len + 3) / 4 →
      parseWriteMemStackedLoop (mkEntries ls ++ rest) len = .ok (ls, rest) := by
  intro ls
  induction ls with
  | nil =>
      intro len rest _ hlen
      have h0 : len = 0 := by simp at hlen; omega
      subst h0
      rw [parseWriteMemStackedLoop]
      rfl
  | cons l ls ih =>
      intro len rest hbound hlen
      have hpos : 0 < len := by simp at hlen; omega
      have hl : l < 65536 := hbound l (by simp)
      rw [parseWriteMemStackedLoop, dif_pos hpos]
      have hrec : parseWriteMemStackedLoop (mkEntries ls ++ rest) (len - 4)
          = .ok (ls, rest) :=
        ih (len - 4) rest (fun x hx => hbound x (by simp [hx]))
          (by simp at hlen; omega)
      simp only [mkEntries, mkEntry, List.cons_append, List.nil_append, readU16,
        Nat.mul_zero, Nat.add_zero, ne_eq, not_true_eq_false, if_false,
        ite_false, hrec]
      simp [Nat.mod_add_div l 256]

/-- C3: `AckScd::parse_write_mem_stacked` terminates for every `scd_len`,
consuming whole 4-byte entries {reserved u16 = 0, length u16} and
decrementing the budget by 4 with saturating subtraction, so an `scd_len`
not divisible by 4 still parses the last whole entry and succeeds; an
entry whose reserved field is non-zero yields InvalidPacket. -/
theorem parse_write_mem_stacked_spec :
    (∀ (ls : List Nat) (len : Nat) (rest : List Nat),
      (∀ l ∈ ls, l < 65536) → ls.length = (len + 3) / 4 →
      AckScd.parse_write_mem_stacked (mkEntries ls ++ rest) len
        = .ok (.writeMemStacked ls, rest)) ∧
    (∀ (bytes : List Nat) (len r0 r1 : Nat), 0 < len → r0 + 256 * r1 ≠ 0 →
      AckScd.parse_write_mem_stacked (r0 :: r1 :: bytes) len
        = .error (.invalidPacket
            "the first two bytes of each WriteMemStackedAck scd entry must be set to zero")) := by
  constructor
  · intro ls len rest hbound hlen
    rw [AckScd.parse_write_mem_stacked, parseWriteMemStackedLoop_ok ls len rest hbound hlen]
  · intro bytes len r0 r1 hpos hres
    rw [AckScd.parse_write_mem_stacked, parseWriteMemStackedLoop, dif_pos hpos]
    simp [readU16, hres]

/-- Witness for C3: entries [3, 10] under the non-divisible budget 6, and
a non-zero reserved field under budget 4. -/
theorem parse_write_mem_stacked_spec_witness :
    (AckScd.parse_write_mem_stacked (mkEntries [3, 10] ++ [9]) 6
      = .ok (.writeMemStacked [3, 10], [9])) ∧
    (AckScd.parse_write_mem_stacked [1, 0, 7, 0] 4
      = .error (.invalidPacket
          "the first two bytes of each WriteMemStackedAck scd entry must be set to zero")) :=
  ⟨parse_write_mem_stacked_spec.1 [3, 10] 6 [9] (by decide) (by decide),
   parse_write_mem_stacked_spec.2 [7, 0] 4 1 0 (by decide) (by decide)⟩

/-- Witness for C6 at `new 5`, i = 1, r = RW, j = 0. -/
theorem set_access_right_frame_witness :
    (((MemoryProtection.new 5).set_access_right 1 .RW).access_right 1 = .RW) ∧
    (((MemoryProtection.new 5).set_access_right 1 .RW).access_right 0
      = (MemoryProtection.new 5).access_right 0) :=
  ⟨(set_access_right_frame (MemoryProtection.new 5) 1 .RW
      ⟨by decide, by decide⟩ (by decide)).1,
   (set_access_right_frame (MemoryProtection.new 5) 1 .RW
      ⟨by decide, by decide⟩ (by decide)).2 0 (by decide) (by decide)⟩

/-- C2: `open` with a non-Exclusive flag returns AccessDenied, and `open`
on an already-opened device returns ResourceInUse, leaving the module
state untouched in both cases; an `open` that returns Ok has transitioned
the status to OpenReadWrite; when the external open fails while the
control handle is still obtained, the status becomes Busy on an access
conflict and NoAccess on an I/O error; a failed external open never leaves
the module in OpenReadWrite; and `close` transitions the status to
ReadWrite when the external close succeeds. -/
theorem u3v_open_close_transitions :
    ∀ (m : U3VDeviceModule) (env : U3VDeviceEnv),
      (∀ flag, flag ≠ DeviceAccessFlag.exclusive →
        U3VDeviceModule.open m flag env = (.error .accessDenied, m)) ∧
      (m.is_opened = true →
        U3VDeviceModule.open m .exclusive env = (.error .resourceInUse, m)) ∧
      (∀ flag, (U3VDeviceModule.open m flag env).1 = .ok () →
        (U3VDeviceModule.open m flag env).2.current_status = .openReadWrite) ∧
      (m.is_opened = false → env.ctrlRes = .ok () →
        ((env.openRes = .error .accessDenied →
           (U3VDeviceModule.open m .exclusive env).2.current_status = .busy) ∧
         (env.openRes = .error .ioError →
           (U3VDeviceModule.open m .exclusive env).2.current_status = .noAccess))) ∧
      (∀ flag, m.is_opened = false → env.openRes ≠ .ok () →
        (U3VDeviceModule.open m flag env).2.current_status ≠ .openReadWrite) ∧
      (env.closeRes = .ok () →
        (m.close env).2.current_status = .readWrite) := by
  intro m env
  refine ⟨?_, ?_, ?_, ?_, ?_, ?_⟩
  · intro flag hflag
    cases flag with
    | exclusive => exact absurd rfl hflag
    | readOnly => rfl
    | control => rfl
  · intro hop
    simp [U3VDeviceModule.open, hop]
  · intro flag hok
    cases flag with
    | readOnly => simp [U3VDeviceModule.open] at hok
    | control => simp [U3VDeviceModule.open] at hok
    | exclusive =>
        by_cases hop : m.is_opened = true
        · simp [U3VDeviceModule.open, hop] at hok
        · rw [Bool.not_eq_true] at hop
          cases hctrl : env.ctrlRes with
          | error e =>
              simp [U3VDeviceModule.open, hop, hctrl] at hok
          | ok u =>
              cases hopen : env.openRes with
              | error e =>
                  simp [U3VDeviceModule.open, hop, hctrl, hopen] at hok
              | ok u' =>
                  simp [U3VDeviceModule.open, hop, hctrl, hopen]
  · intro hop hctrl
    constructor
    · intro hopen
      simp [U3VDeviceModule.open, hop, hctrl, hopen]
    · intro hopen
      simp [U3VDeviceModule.open, hop, hctrl, hopen]
  · intro flag hop hopen
    cases flag with
    | readOnly =>
        simp only [U3VDeviceModule.open]
        rw [if_pos (by intro h; cases h)]
        simp only [hop]
        intro h
        rw [U3VDeviceModule.is_opened, h] at hop
        cases hop
    | control =>
        simp only [U3VDeviceModule.open]
        rw [if_pos (by intro h; cases h)]
        simp only [hop]
        intro h
        rw [U3VDeviceModule.is_opened, h] at hop
        cases hop
    | exclusive =>
        cases hctrl : env.ctrlRes with
        | error e =>
            simp only [U3VDeviceModule.open, hop, hctrl]
            simp only [ne_eq, not_true_eq_false, ite_false, if_false,
              Bool.false_eq_true]
            intro h
            rw [U3VDeviceModule.is_opened, h] at hop
            cases hop
        | ok u =>
            cases hopen2 : env.openRes with
            | ok u' => exact absurd hopen2 (by cases u'; exact hopen)
            | error e =>
                cases e <;>
                  simp [U3VDeviceModule.open, hop, hctrl, hopen2]
  · intro hclose
    simp [U3VDeviceModule.close, hclose]

/-- Witness for C2 on a closed device whose external calls all succeed
(and, for the failure transitions, an environment whose open fails). -/
theorem u3v_open_close_transitions_witness :
    (U3VDeviceModule.open ⟨.readWrite, .readWrite, false⟩ .readOnly
        ⟨.ok (), .ok (), .ok ()⟩
      = (.error .accessDenied, ⟨.readWrite, .readWrite, false⟩)) ∧
    (U3VDeviceModule.open ⟨.openReadWrite, .readWrite, true⟩ .exclusive
        ⟨.ok (), .ok (), .ok ()⟩
      = (.error .resourceInUse, ⟨.openReadWrite, .readWrite, true⟩)) ∧
    ((U3VDeviceModule.open ⟨.readWrite, .readWrite, false⟩ .exclusive
        ⟨.ok (), .ok (), .ok ()⟩).2.current_status = .openReadWrite) ∧
    ((U3VDeviceModule.open ⟨.readWrite, .readWrite, false⟩ .exclusive
        ⟨.error .accessDenied, .ok (), .ok ()⟩).2.current_status = .busy) ∧
    ((U3VDeviceModule.open ⟨.readWrite, .readWrite, false⟩ .exclusive
        ⟨.error .ioError, .ok (), .ok ()⟩).2.current_status = .noAccess) ∧
    ((U3VDeviceModule.open ⟨.readWrite, .readWrite, false⟩ .exclusive
        ⟨.error .ioError, .ok (), .ok ()⟩).2.current_status ≠ .openReadWrite) ∧
    ((U3VDeviceModule.close ⟨.openReadWrite, .readWrite, true⟩
        ⟨.ok (), .ok (), .ok ()⟩).2.current_status = .readWrite) :=
  ⟨(u3v_open_close_transitions ⟨.readWrite, .readWrite, false⟩
      ⟨.ok (), .ok (), .ok ()⟩).1 .readOnly (by intro h; cases h),
   (u3v_open_close_transitions ⟨.openReadWrite, .readWrite, true⟩
      ⟨.ok (), .ok (), .ok ()⟩).2.1 rfl,
   (u3v_open_close_transitions ⟨.readWrite, .readWrite, false⟩
      ⟨.ok (), .ok (), .ok ()⟩).2.2.1 .exclusive rfl,
   ((u3v_open_close_transitions ⟨.readWrite, .readWrite, false⟩
      ⟨.error .accessDenied, .ok (), .ok ()⟩).2.2.2.1 rfl rfl).1 rfl,
   ((u3v_open_close_transitions ⟨.readWrite, .readWrite, false⟩
      ⟨.error .ioError, .ok (), .ok ()⟩).2.2.2.1 rfl rfl).2 rfl,
   (u3v_open_close_transitions ⟨.readWrite, .readWrite, false⟩
      ⟨.error .ioError, .ok (), .ok ()⟩).2.2.2.2.1 .exclusive rfl
      (by intro h; cases h),
   (u3v_open_close_transitions ⟨.openReadWrite, .readWrite, true⟩
      ⟨.ok (), .ok (), .ok ()⟩).2.2.2.2.2 rfl⟩

/-- C7: when the device is not opened, every port operation — read, write,
port_info and xml_infos — returns NotInitialized, whatever the underlying
virtual-memory access would have produced. -/
theorem u3v_port_requires_open :
    ∀ (m : U3VDeviceModule) (vmR : Except GenTlError (List Nat))
      (vmW : Except GenTlError Unit) (data : List Nat),
      m.is_opened = false →
      (m.portRead vmR = .error .notInit ∧
       m.portWrite vmW data = .error .notInit ∧
       m.portInfo = .error .notInit ∧
       m.xmlInfos = .error .notInit) := by
  intro m vmR vmW data hop
  have ha : m.assert_open = .error .notInit := by
    rw [U3VDeviceModule.assert_open, hop]
    rfl
  refine ⟨?_, ?_, ?_, ?_⟩ <;>
    simp [U3VDeviceModule.portRead, U3VDeviceModule.portWrite,
      U3VDeviceModule.portInfo, U3VDeviceModule.xmlInfos, ha]

/-- Witness for C7 on a closed device. -/
theorem u3v_port_requires_open_witness :
    (U3VDeviceModule.portRead ⟨.readWrite, .readWrite, false⟩ (.ok [0])
      = .error .notInit) ∧
    (U3VDeviceModule.portWrite ⟨.readWrite, .readWrite, false⟩ (.ok ()) [0]
      = .error .notInit) ∧
    (U3VDeviceModule.portInfo ⟨.readWrite, .readWrite, false⟩
      = .error .notInit) ∧
    (U3VDeviceModule.xmlInfos ⟨.readWrite, .readWrite, false⟩
      = .error .notInit) :=
  u3v_port_requires_open ⟨.readWrite, .readWrite, false⟩ (.ok [0]) (.ok ()) [0] rfl

/-- C8: `access_status` always reads the `DeviceAccessStatusReg` mirror;
`open` and `close` change `current_status` but never the mirror, so the
value `access_status` returns is unchanged by them; only `reflect_status`
copies `current_status` into the mirror. -/
theorem u3v_access_status_reflect_only :
    ∀ (m : U3VDeviceModule) (flag : DeviceAccessFlag) (env : U3VDeviceEnv),
      (m.access_status = m.status_reg) ∧
      ((U3VDeviceModule.open m flag env).2.status_reg = m.status_reg) ∧
      ((m.close env).2.status_reg = m.status_reg) ∧
      ((U3VDeviceModule.open m flag env).2.access_status = m.access_status) ∧
      ((m.close env).2.access_status = m.access_status) ∧
      (m.reflect_status.status_reg = m.current_status) ∧
      (m.reflect_status.access_status = m.current_status) := by
  intro m flag env
  have hopen : (U3VDeviceModule.open m flag env).2.status_reg = m.status_reg := by
    cases flag with
    | readOnly => rfl
    | control => rfl
    | exclusive =>
        by_cases hop : m.is_opened = true
        · simp [U3VDeviceModule.open, hop]
        · rw [Bool.not_eq_true] at hop
          cases hctrl : env.ctrlRes with
          | error e => simp [U3VDeviceModule.open, hop, hctrl]
          | ok u => simp [U3VDeviceModule.open, hop, hctrl]
  exact ⟨rfl, hopen, rfl, hopen, rfl, rfl, rfl⟩

/-- C9: `close` always returns Ok, even when the external close fails:
the failure is recorded only in `current_status` (NoAccess on an I/O
error, Unknown on any other error) and the remote device is dropped in
every case. -/
theorem u3v_close_infallible :
    ∀ (m : U3VDeviceModule) (env : U3VDeviceEnv),
      ((m.close env).1 = .ok ()) ∧
      ((m.close env).2.remote_device = false) ∧
      (env.closeRes = .error .ioError →
        (m.close env).2.current_status = .noAccess) ∧
      (∀ e, e ≠ GenTlError.ioError → env.closeRes = .error e →
        (m.close env).2.current_status = .unknown) ∧
      (env.closeRes = .ok () → (m.close env).2.current_status = .readWrite) := by
  intro m env
  refine ⟨rfl, rfl, ?_, ?_, ?_⟩
  · intro h; simp [U3VDeviceModule.close, h]
  · intro e he h
    cases e <;> simp [U3VDeviceModule.close, h]
    exact absurd rfl he
  · intro h; simp [U3VDeviceModule.close, h]

/-- Witness for C9: close with a failing external close (I/O error) and
with a succeeding one. -/
theorem u3v_close_infallible_witness :
    ((U3VDeviceModule.close ⟨.openReadWrite, .readWrite, true⟩
        ⟨.ok (), .ok (), .error .ioError⟩).1 = .ok ()) ∧
    ((U3VDeviceModule.close ⟨.openReadWrite, .readWrite, true⟩
        ⟨.ok (), .ok (), .error .ioError⟩).2.remote_device = false) ∧
    ((U3VDeviceModule.close ⟨.openReadWrite, .readWrite, true⟩
        ⟨.ok (), .ok (), .error .ioError⟩).2.current_status = .noAccess) ∧
    ((U3VDeviceModule.close ⟨.openReadWrite, .readWrite, true⟩
        ⟨.ok (), .ok (), .error .otherError⟩).2.current_status = .unknown) ∧
    ((U3VDeviceModule.close ⟨.openReadWrite, .readWrite, true⟩
        ⟨.ok (), .ok (), .ok ()⟩).2.current_status = .readWrite) :=
  ⟨(u3v_close_infallible ⟨.openReadWrite, .readWrite, true⟩
      ⟨.ok (), .ok (), .error .ioError⟩).1,
   (u3v_close_infallible ⟨.openReadWrite, .readWrite, true⟩
      ⟨.ok (), .ok (), .error .ioError⟩).2.1,
   (u3v_close_infallible ⟨.openReadWrite, .readWrite, true⟩
      ⟨.ok (), .ok (), .error .ioError⟩).2.2.1 rfl,
   (u3v_close_infallible ⟨.openReadWrite, .readWrite, true⟩
      ⟨.ok (), .ok (), .error .otherError⟩).2.2.2.1 .otherError
      (by intro h; cases h) rfl,
   (u3v_close_infallible ⟨.openReadWrite, .readWrite, true⟩
      ⟨.ok (), .ok (), .ok ()⟩).2.2.2.2 rfl⟩

end Cameleon
